import Mathlib

/-!
# Verification of the Scalping dashboard (app.py, database.py, models.py)

Shallow embedding of the EUR/USD scalping-signal dashboard.  Python floats
are modelled as exact rationals (`ℚ`), Python `int` as `Int`/`Nat`,
`round(x, k)` as rounding `x * 10^k` to the nearest integer, `int(x)` on a
non-negative float as the floor, and the `random` module as an injectable
stream of draws (`Rng`).  Fallible database commits are modelled with an
explicit success flag, mirroring the `try/commit/except/rollback` structure
of `database.py`.
-/

set_option autoImplicit false

namespace Scalping

/-- Injectable random source: three streams of raw draws together with the
current position in each stream.  `random.choice([0,1])` consumes from
`bits`, `random.random()` from `floats` (reduced into `[0,1)`), and
`random.randint(lo,hi)` from `ints` (reduced into `[lo,hi]`).  A fixed
`Rng` value plays the role of a seeded `random.Random` instance. -/
structure Rng where
  bits : Nat → Nat
  floats : Nat → ℚ
  ints : Nat → Nat
  bIdx : Nat := 0
  fIdx : Nat := 0
  iIdx : Nat := 0

/-- Model of `random.choice([0, 1])`: the next coin flip, in `{0, 1}`. -/
def drawBit (r : Rng) : Nat × Rng :=
  (r.bits r.bIdx % 2, { r with bIdx := r.bIdx + 1 })

/-- Model of `random.random()`: the next float draw, reduced into `[0, 1)`. -/
def drawFloat (r : Rng) : ℚ × Rng :=
  (Int.fract (r.floats r.fIdx), { r with fIdx := r.fIdx + 1 })

/-- Model of `random.randint(lo, hi)`: the next integer draw, reduced into `[lo, hi]`. -/
def drawInt (lo hi : Nat) (r : Rng) : Nat × Rng :=
  (lo + r.ints r.iIdx % (hi + 1 - lo), { r with iIdx := r.iIdx + 1 })

/-- The process-wide `market_data` dict of `app.py` (the display-only
`last_update` timestamp is modelled just by whether it is set). -/
structure MarketState where
  current_price : ℚ
  volume : Int
  high_24h : ℚ
  low_24h : ℚ
  has_last_update : Bool
  deriving DecidableEq

/-- The process-wide `economic_news` dict of `app.py`; only the derived
`high_impact` flag feeds the synthesis logic. -/
structure NewsState where
  high_impact : Bool
  deriving DecidableEq

/-- The process-wide `trading_hours` dict of `app.py`. -/
structure TradingWindow where
  start : Int
  end_ : Int
  enabled : Bool
  deriving DecidableEq

/-- Embedding of `app.py` `is_trading_allowed`, with the current UTC hour
(`datetime.utcnow().hour`) passed explicitly. -/
def is_trading_allowed (w : TradingWindow) (news : NewsState) (hour : Int) : Bool :=
  if ¬w.enabled then true
  else if hour ≥ w.start ∧ hour < w.end_ then
    if news.high_impact then false else true
  else false

/-- The keys of the `INDICATORS` dict of `app.py`, in insertion order. -/
def INDICATORS : List String :=
  ["EMA Crossover", "MACD", "RSI Divergence", "Liquidity Sweep", "VWAP Bounce",
   "Breakout", "Order Block", "Volume Confirmation", "Fibonacci Retracement",
   "Bollinger Bands"]

/-- The flag-drawing loop of `analyze_signal` over a list of indicator names:
`strategies[name] = 1 if volume > 1000000 else 0` when
`name == "Volume Confirmation" and market_data["volume"] > 0`, otherwise
`strategies[name] = random.choice([0, 1])`. -/
def drawFlagsAux (m : MarketState) : List String → Rng → List (String × Nat) × Rng
  | [], rng => ([], rng)
  | name :: rest, rng =>
    if name = "Volume Confirmation" ∧ 0 < m.volume then
      let tl := drawFlagsAux m rest rng
      ((name, if 1000000 < m.volume then 1 else 0) :: tl.1, tl.2)
    else
      let b := drawBit rng
      let tl := drawFlagsAux m rest b.2
      ((name, b.1) :: tl.1, tl.2)

/-- The `strategies` dict right after the `for name in INDICATORS` loop of
`analyze_signal`, as an ordered association list, paired with the random
source after the loop. -/
def drawFlags (m : MarketState) (rng : Rng) : List (String × Nat) × Rng :=
  drawFlagsAux m INDICATORS rng

/-- Python dict assignment on an existing key (value replaced in place). -/
def setFlag (l : List (String × Nat)) (k : String) (v : Nat) : List (String × Nat) :=
  l.map (fun p => if p.1 = k then (p.1, v) else p)

/-- Python dict lookup `strategies[k]` (0 for a missing key; all uses in the
source look up present keys). -/
def getFlag (l : List (String × Nat)) (k : String) : Nat :=
  ((l.find? (fun p => p.1 = k)).map (fun p => p.2)).getD 0

/-- The `strategies` dict after the high-impact-news adjustment of
`analyze_signal`: a fresh `"News Spike"` key is appended and the
`"EMA Crossover"` and `"RSI Divergence"` flags are zeroed. -/
def strategies_after_news (m : MarketState) (news : NewsState) (rng : Rng) :
    List (String × Nat) :=
  let s0 := (drawFlags m rng).1
  if news.high_impact then
    setFlag (setFlag (s0 ++ [("News Spike", 1)]) "EMA Crossover" 0) "RSI Divergence" 0
  else s0

/-- The unclamped probability of `analyze_signal`: the weighted indicator
tally `int((active_signals / total_signals) * 100)`, where the weighted list
is all flag values plus two extra copies each of `"EMA Crossover"`, `"MACD"`
and `"Volume Confirmation"`.  (For the tallies reachable here, float
`int((a / t) * 100)` agrees with exact `⌊100 * a / t⌋`.) -/
def tally_probability (m : MarketState) (news : NewsState) (rng : Rng) : Nat :=
  let strat := strategies_after_news m news rng
  let active := (strat.map (fun p => p.2)).sum + 2 * getFlag strat "EMA Crossover"
    + 2 * getFlag strat "MACD" + 2 * getFlag strat "Volume Confirmation"
  let total := strat.length + 6
  active * 100 / total

/-- Embedding of `app.py` `calculate_signal_strength`. -/
def calculate_signal_strength (probability : Nat) : String × String :=
  if probability ≥ 75 then ("strong", "success")
  else if probability ≥ 50 then ("moderate", "warning")
  else ("weak", "danger")

/-- Python `round(x, 1)` on the floats reachable here (ties never occur). -/
def roundTo1 (x : ℚ) : ℚ := (round (x * 10) : ℤ) / 10

/-- Python `round(x, 5)`. -/
def roundTo5 (x : ℚ) : ℚ := (round (x * 100000) : ℤ) / 100000

/-- The direction branch of `analyze_signal`: price position within the daily
range biases the LONG/SHORT draw. -/
def chooseDirection (m : MarketState) (rng : Rng) : String × Rng :=
  if 0 < m.current_price then
    let daily_range := m.high_24h - m.low_24h
    if 0 < daily_range then
      let position_in_range := (m.current_price - m.low_24h) / daily_range
      if position_in_range < 33 / 100 then
        let r := drawFloat rng
        ((if r.1 > 3 / 10 then "LONG" else "SHORT"), r.2)
      else if position_in_range > 66 / 100 then
        let r := drawFloat rng
        ((if r.1 > 3 / 10 then "SHORT" else "LONG"), r.2)
      else
        let r := drawFloat rng
        ((if r.1 > 1 / 2 then "LONG" else "SHORT"), r.2)
    else
      let r := drawFloat rng
      ((if r.1 > 1 / 2 then "LONG" else "SHORT"), r.2)
  else
    let r := drawFloat rng
    ((if r.1 > 1 / 2 then "LONG" else "SHORT"), r.2)

/-- The signal dict built by `analyze_signal`. -/
structure SignalRec where
  timestamp : String
  strategies : List (String × Nat)
  probability : Nat
  direction : String
  duration : Nat
  risk_reward : ℚ
  current_price : ℚ
  entry_price : ℚ
  target_price : ℚ
  stop_loss : ℚ
  pips_target : Nat
  strength_class : String
  strength_color : String
  trading_allowed : Bool
  volume : Int
  high_24h : ℚ
  low_24h : ℚ
  has_high_impact_news : Bool
  deriving DecidableEq

/-- Embedding of `app.py` `analyze_signal`, on the market/news/window state it reads, the
current UTC hour (`datetime.utcnow().hour`), the current timestamp string
(`datetime.now().strftime(...)`), and the random source.  Returns the signal
together with the random source after all draws.  (The embedding covers the
synthesis logic itself; the initial best-effort `fetch_market_data()` guard,
which only runs when the price is unset, is external I/O and is represented
by the market-state argument.) -/
def analyze_signal (m : MarketState) (news : NewsState) (w : TradingWindow)
    (hour : Int) (now : String) (rng : Rng) : SignalRec × Rng :=
  let trading_allowed := is_trading_allowed w news hour
  let strat := strategies_after_news m news rng
  let rng1 := (drawFlags m rng).2
  let probability0 := tally_probability m news rng
  let probability := if trading_allowed then probability0 else max 10 (probability0 / 2)
  let dir := chooseDirection m rng1
  let direction := dir.1
  let rng2 := dir.2
  let bd := drawInt 5 15 rng2
  let base_duration := bd.1
  let rng3 := bd.2
  let modifier : ℚ := if news.high_impact then (probability : ℚ) / 50 * (1 / 2)
    else (probability : ℚ) / 50
  let duration := max 5 (min 45 (Int.toNat ⌊(base_duration : ℚ) * modifier⌋))
  let risk_reward := roundTo1 (1 + (probability : ℚ) / 100 * 2)
  let cp := if m.current_price = 0 then
      let r := drawFloat rng3
      (roundTo5 (107 / 100 + r.1 * (1 / 100)), r.2)
    else (m.current_price, rng3)
  let current_price := cp.1
  let rng4 := cp.2
  let pm := drawInt 5 15 rng4
  let pips_movement := probability / 10 + pm.1
  let rng5 := pm.2
  let pip_value : ℚ := 1 / 10000
  let entry_price := current_price
  let target_price := if direction = "LONG" then
      roundTo5 (current_price + pip_value * pips_movement)
    else roundTo5 (current_price - pip_value * pips_movement)
  let stop_loss := if direction = "LONG" then
      roundTo5 (current_price - pip_value * ((pips_movement : ℚ) / risk_reward))
    else roundTo5 (current_price + pip_value * ((pips_movement : ℚ) / risk_reward))
  let strength := calculate_signal_strength probability
  ({ timestamp := now
     strategies := strat
     probability := probability
     direction := direction
     duration := duration
     risk_reward := risk_reward
     current_price := current_price
     entry_price := entry_price
     target_price := target_price
     stop_loss := stop_loss
     pips_target := pips_movement
     strength_class := strength.1
     strength_color := strength.2
     trading_allowed := trading_allowed
     volume := m.volume
     high_24h := m.high_24h
     low_24h := m.low_24h
     has_high_impact_news := news.high_impact }, rng5)

/-- The full application context read by a request handler: the shared
mutable globals of `app.py` plus the ambient clock and random source.
(`history` is the in-memory signal list; it is read and written by the
routes but not by `analyze_signal`.) -/
structure AppState where
  market : MarketState
  news : NewsState
  trading_hours : TradingWindow
  history : List SignalRec
  hour : Int
  now : String
  rng : Rng

/-- The function `analyze_signal` as invoked by a route handler on the application
context. -/
def analyze_signal_app (s : AppState) : SignalRec × Rng :=
  analyze_signal s.market s.news s.trading_hours s.hour s.now s.rng

/-- The history update performed (identically) by the `index` route and the
`new_signal` route of `app.py`: `history.append(signal)` followed by
`history.pop(0)` when the length exceeds 10. -/
def push_history {α : Type} (h : List α) (s : α) : List α :=
  let h' := h ++ [s]
  if h'.length > 10 then h'.drop 1 else h'

/-! ## Persistence layer (`database.py`, `models.py`)

Each write helper opens a scoped session, stages one new row, and either
commits it (appending the row to the store and returning its autoincrement
id) or hits an exception, in which case the `except` branch rolls the
transaction back (the store is unchanged) and `None` is returned.  The
external commit outcome is an explicit `ok : Bool` argument. -/

/-- A value stored in the `strategies` JSON column: `save_signal` converts
booleans to ints and passes other values through. -/
inductive SVal where
  | ival (n : Int)
  | bval (b : Bool)
  deriving DecidableEq

/-- The bool-to-int conversion loop at the top of `save_signal`. -/
def convStrategies (l : List (String × SVal)) : List (String × Int) :=
  l.map (fun p => match p.2 with
    | SVal.ival n => (p.1, n)
    | SVal.bval b => (p.1, if b then 1 else 0))

/-- The fields `save_signal` reads from the signal dict.  The three fields
read with `.get(key, default)` are optional; the rest are taken as present
(they always are in the dict built by `analyze_signal`). -/
structure SignalData where
  timestamp : String
  direction : String
  probability : ℚ
  entry_price : ℚ
  target_price : ℚ
  stop_loss : ℚ
  pips_target : Int
  risk_reward : ℚ
  duration : Int
  strategies : List (String × SVal)
  strength_class : String
  trading_allowed : Option Bool
  has_high_impact_news : Option Bool
  volume : Option ℚ
  deriving DecidableEq

/-- A row of the `signals` table (`models.py` `Signal`). -/
structure SignalRow where
  id : Nat
  timestamp : String
  direction : String
  probability : ℚ
  entry_price : ℚ
  target_price : ℚ
  stop_loss : ℚ
  pips_target : Int
  risk_reward : ℚ
  duration : Int
  strategies : List (String × Int)
  strength_class : String
  trading_allowed : Bool
  high_impact_news : Bool
  volume : ℚ
  deriving DecidableEq

/-- The `Signal` row staged by `save_signal`, with the autoincrement id it
receives on commit. -/
def mkSignalRow (id : Nat) (d : SignalData) : SignalRow :=
  { id := id
    timestamp := d.timestamp
    direction := d.direction
    probability := d.probability
    entry_price := d.entry_price
    target_price := d.target_price
    stop_loss := d.stop_loss
    pips_target := d.pips_target
    risk_reward := d.risk_reward
    duration := d.duration
    strategies := convStrategies d.strategies
    strength_class := d.strength_class
    trading_allowed := d.trading_allowed.getD true
    high_impact_news := d.has_high_impact_news.getD false
    volume := d.volume.getD 0 }

/-- Embedding of `database.py` `save_signal`: stage one row in a fresh session and commit.
On failure the transaction is rolled back (store unchanged) and `none` is
returned; on success the new row is appended and its id returned. -/
def save_signal (store : List SignalRow) (d : SignalData) (ok : Bool) :
    List SignalRow × Option Nat :=
  let row := mkSignalRow (store.length + 1) d
  if ok then (store ++ [row], some row.id) else (store, none)

/-- The fields `save_signal_result` reads from the result dict. -/
structure ResultData where
  signal_id : Int
  result : String
  pips_gained : Option ℚ
  exit_price : Option ℚ
  exit_time : Option String
  notes : Option String
  deriving DecidableEq

/-- A row of the `signal_results` table (`models.py` `SignalResult`).  The
schema carries a plain foreign key to `signals.id` and no uniqueness
constraint on `signal_id`. -/
structure ResultRow where
  id : Nat
  signal_id : Int
  result : String
  pips_gained : Option ℚ
  exit_price : Option ℚ
  exit_time : Option String
  notes : Option String
  deriving DecidableEq

/-- The `SignalResult` row staged by `save_signal_result`. -/
def mkResultRow (id : Nat) (d : ResultData) : ResultRow :=
  { id := id
    signal_id := d.signal_id
    result := d.result
    pips_gained := d.pips_gained
    exit_price := d.exit_price
    exit_time := d.exit_time
    notes := d.notes }

/-- Embedding of `database.py` `save_signal_result`: stage one result row and commit.  No
lookup of existing results for the same signal id is performed before the
insert. -/
def save_signal_result (store : List ResultRow) (d : ResultData) (ok : Bool) :
    List ResultRow × Option Nat :=
  let row := mkResultRow (store.length + 1) d
  if ok then (store ++ [row], some row.id) else (store, none)

/-- The fields `save_market_snapshot` reads from the market dict. -/
structure SnapshotData where
  current_price : ℚ
  high_24h : ℚ
  low_24h : ℚ
  volume : Option ℚ
  deriving DecidableEq

/-- A row of the `market_snapshots` table (`models.py` `MarketSnapshot`). -/
structure SnapshotRow where
  id : Nat
  symbol : String
  price : ℚ
  high_24h : ℚ
  low_24h : ℚ
  volume : ℚ
  deriving DecidableEq

/-- The `MarketSnapshot` row staged by `save_market_snapshot`. -/
def mkSnapshotRow (id : Nat) (d : SnapshotData) : SnapshotRow :=
  { id := id
    symbol := "EURUSD"
    price := d.current_price
    high_24h := d.high_24h
    low_24h := d.low_24h
    volume := d.volume.getD 0 }

/-- Embedding of `database.py` `save_market_snapshot`: stage one snapshot row and
commit. -/
def save_market_snapshot (store : List SnapshotRow) (d : SnapshotData) (ok : Bool) :
    List SnapshotRow × Option Nat :=
  let row := mkSnapshotRow (store.length + 1) d
  if ok then (store ++ [row], some row.id) else (store, none)

/-- The statistics dict returned by `get_signal_statistics`. -/
structure Stats where
  total_signals : Nat
  signals_with_results : Nat
  wins : Nat
  losses : Nat
  win_rate : ℚ
  avg_pips_gained : ℚ
  deriving DecidableEq

/-- Python `round(x, 2)`. -/
def roundTo2 (x : ℚ) : ℚ := (round (x * 100) : ℤ) / 100

/-- Embedding of `database.py` `get_signal_statistics` on the success path: row counts,
filtered counts, a guarded win-rate, and the SQL `AVG` over the non-null
`pips_gained` values (`NULL`, i.e. an empty aggregate, becoming 0 via
`or 0`). -/
def get_signal_statistics (signals : List SignalRow) (results : List ResultRow) :
    Stats :=
  let total_signals := signals.length
  let signals_with_results := results.length
  let wins := (results.filter (fun r => r.result = "WIN")).length
  let losses := (results.filter (fun r => r.result = "LOSS")).length
  let win_rate : ℚ := if 0 < signals_with_results
    then ((wins : ℚ) / (signals_with_results : ℚ)) * 100 else 0
  let pips := results.filterMap (fun r => r.pips_gained)
  let avg_pips : ℚ := if pips.length = 0 then 0 else pips.sum / (pips.length : ℚ)
  { total_signals := total_signals
    signals_with_results := signals_with_results
    wins := wins
    losses := losses
    win_rate := roundTo2 win_rate
    avg_pips_gained := roundTo2 avg_pips }

/-! ## Settings endpoint (`app.py` `update_settings`) -/

/-- A JSON value arriving in the settings request body. -/
inductive JVal where
  | jnum (n : Int)
  | jstr (s : String)
  | jbool (b : Bool)
  deriving DecidableEq

/-- Python `bool(v)` on a JSON value (never raises). -/
def pyBool : JVal → Bool
  | JVal.jnum n => n ≠ 0
  | JVal.jstr s => s ≠ ""
  | JVal.jbool b => b

/-- Python `int(s)` on a string: succeeds exactly when the string spells a
natural number.  (Python additionally strips whitespace and accepts a sign;
the non-numeric strings used below fail there just as they do here.) -/
def pyStrToInt (s : String) : Option Int :=
  if s.data ≠ [] ∧ s.data.all Char.isDigit then
    some (s.data.foldl (fun n c => n * 10 + ((c.toNat : Int) - 48)) 0)
  else none

/-- Python `int(v)` on a JSON value: numbers and booleans coerce, strings
coerce via `pyStrToInt`. -/
def pyInt : JVal → Option Int
  | JVal.jnum n => some n
  | JVal.jstr s => pyStrToInt s
  | JVal.jbool b => some (if b then 1 else 0)

/-- The `trading_hours` object of the settings request body; each field is
present or absent. -/
structure HoursBody where
  enabled : Option JVal
  start : Option JVal
  end_ : Option JVal

/-- Embedding of `app.py` `update_settings` on a body containing a `trading_hours` dict:
the provided fields are applied to the shared `trading_hours` state one at a
time (`enabled`, then `start`, then `end`), and a coercion failure aborts
the remainder inside the route's `try`, returning `success: False` while
keeping every mutation already applied.  Returns the trading-window state
after the call and the `success` flag of the response. -/
def update_settings (w : TradingWindow) (hours : HoursBody) : TradingWindow × Bool :=
  let w1 := match hours.enabled with
    | some v => { w with enabled := pyBool v }
    | none => w
  match hours.start with
  | some v =>
    match pyInt v with
    | none => (w1, false)
    | some n =>
      let w2 := { w1 with start := n }
      match hours.end_ with
      | some v2 =>
        match pyInt v2 with
        | none => (w2, false)
        | some n2 => ({ w2 with end_ := n2 }, true)
      | none => (w2, true)
  | none =>
    match hours.end_ with
    | some v2 =>
      match pyInt v2 with
      | none => (w1, false)
      | some n2 => ({ w1 with end_ := n2 }, true)
    | none => (w1, true)

/-! ## Helper lemmas -/

lemma drawFlagsAux_le_one (m : MarketState) (names : List String) (rng : Rng) :
    ∀ p ∈ (drawFlagsAux m names rng).1, p.2 ≤ 1 := by
  induction names generalizing rng with
  | nil => intro p hp; simp [drawFlagsAux] at hp
  | cons name rest ih =>
    intro p hp
    simp only [drawFlagsAux] at hp
    split at hp
    · rcases List.mem_cons.1 hp with h | h
      · subst h; split <;> simp
      · exact ih _ p h
    · rcases List.mem_cons.1 hp with h | h
      · subst h
        simpa [drawBit] using Nat.lt_succ_iff.1 (Nat.mod_lt _ (by norm_num))
      · exact ih _ p h

lemma setFlag_le_one {l : List (String × Nat)} {k : String} {v : Nat}
    (hl : ∀ p ∈ l, p.2 ≤ 1) (hv : v ≤ 1) : ∀ p ∈ setFlag l k v, p.2 ≤ 1 := by
  intro p hp
  simp only [setFlag, List.mem_map] at hp
  obtain ⟨q, hq, hpq⟩ := hp
  by_cases h : q.1 = k
  · simp [h] at hpq; subst hpq; exact hv
  · simp [h] at hpq; subst hpq; exact hl q hq

lemma strategies_le_one (m : MarketState) (news : NewsState) (rng : Rng) :
    ∀ p ∈ strategies_after_news m news rng, p.2 ≤ 1 := by
  intro p hp
  simp only [strategies_after_news] at hp
  split at hp
  · refine setFlag_le_one (setFlag_le_one ?_ (by norm_num)) (by norm_num) p hp
    intro q hq
    rcases List.mem_append.1 hq with h | h
    · exact drawFlagsAux_le_one m INDICATORS rng q h
    · simp at h; subst h; norm_num
  · exact drawFlagsAux_le_one m INDICATORS rng p hp

lemma getFlag_le_one {l : List (String × Nat)} (hl : ∀ p ∈ l, p.2 ≤ 1)
    (k : String) : getFlag l k ≤ 1 := by
  unfold getFlag
  cases hf : l.find? (fun p => p.1 = k) with
  | none => simp
  | some q => simpa using hl q (List.mem_of_find?_eq_some hf)

lemma sum_le_length {l : List (String × Nat)} (hl : ∀ p ∈ l, p.2 ≤ 1) :
    (l.map (fun p => p.2)).sum ≤ l.length := by
  induction l with
  | nil => simp
  | cons q t ih =>
    simp only [List.map_cons, List.sum_cons, List.length_cons]
    have h1 := hl q (List.mem_cons_self q t)
    have h2 := ih (fun p hp => hl p (List.mem_cons_of_mem q hp))
    omega

lemma tally_probability_le_100 (m : MarketState) (news : NewsState) (rng : Rng) :
    tally_probability m news rng ≤ 100 := by
  unfold tally_probability
  set strat := strategies_after_news m news rng with hs
  have hle : ∀ p ∈ strat, p.2 ≤ 1 := strategies_le_one m news rng
  have hsum := sum_le_length hle
  have hEMA := getFlag_le_one hle "EMA Crossover"
  have hMACD := getFlag_le_one hle "MACD"
  have hVC := getFlag_le_one hle "Volume Confirmation"
  have hactive : (strat.map (fun p => p.2)).sum + 2 * getFlag strat "EMA Crossover"
      + 2 * getFlag strat "MACD" + 2 * getFlag strat "Volume Confirmation"
      ≤ strat.length + 6 := by omega
  calc ((strat.map (fun p => p.2)).sum + 2 * getFlag strat "EMA Crossover"
      + 2 * getFlag strat "MACD" + 2 * getFlag strat "Volume Confirmation") * 100
      / (strat.length + 6)
      ≤ (strat.length + 6) * 100 / (strat.length + 6) :=
        Nat.div_le_div_right (Nat.mul_le_mul_right 100 hactive)
    _ = 100 := Nat.mul_div_cancel_left 100 (by omega)

/-- The probability stored in the signal, as a function of the unclamped
tally and the trading gate. -/
lemma analyze_signal_probability (m : MarketState) (news : NewsState)
    (w : TradingWindow) (hour : Int) (now : String) (rng : Rng) :
    (analyze_signal m news w hour now rng).1.probability =
      if is_trading_allowed w news hour then tally_probability m news rng
      else max 10 (tally_probability m news rng / 2) := rfl

lemma analyze_signal_probability_le_100 (m : MarketState) (news : NewsState)
    (w : TradingWindow) (hour : Int) (now : String) (rng : Rng) :
    (analyze_signal m news w hour now rng).1.probability ≤ 100 := by
  rw [analyze_signal_probability]
  have h := tally_probability_le_100 m news rng
  split
  · exact h
  · exact max_le (by norm_num) (le_trans (Nat.div_le_self _ _) h)

lemma round_le_round {x y : ℚ} (h : x ≤ y) : round x ≤ round y := by
  rw [round_eq, round_eq]
  exact Int.floor_le_floor (by linarith)

lemma roundTo1_rr_bounds {p : Nat} (hp : p ≤ 100) :
    1 ≤ roundTo1 (1 + (p : ℚ) / 100 * 2) ∧ roundTo1 (1 + (p : ℚ) / 100 * 2) ≤ 3 := by
  have hx1 : (10 : ℚ) ≤ (1 + (p : ℚ) / 100 * 2) * 10 := by
    have : (0 : ℚ) ≤ (p : ℚ) := Nat.cast_nonneg p
    nlinarith
  have hx2 : (1 + (p : ℚ) / 100 * 2) * 10 ≤ 30 := by
    have : (p : ℚ) ≤ 100 := by exact_mod_cast hp
    nlinarith
  have h1 : (10 : ℤ) ≤ round ((1 + (p : ℚ) / 100 * 2) * 10) := by
    have := round_le_round hx1
    simpa using this
  have h2 : round ((1 + (p : ℚ) / 100 * 2) * 10) ≤ 30 := by
    have := round_le_round hx2
    simpa using this
  unfold roundTo1
  constructor
  · rw [le_div_iff₀ (by norm_num : (0 : ℚ) < 10)]
    exact_mod_cast h1
  · rw [div_le_iff₀ (by norm_num : (0 : ℚ) < 10)]
    exact_mod_cast h2

lemma roundTo5_ge (x : ℚ) : x - 1 / 200000 ≤ roundTo5 x := by
  have h := abs_sub_round (x * 100000)
  rw [abs_le] at h
  unfold roundTo5
  rw [le_div_iff₀ (by norm_num : (0 : ℚ) < 100000)]
  linarith [h.1]

lemma roundTo5_le (x : ℚ) : roundTo5 x ≤ x + 1 / 200000 := by
  have h := abs_sub_round (x * 100000)
  rw [abs_le] at h
  unfold roundTo5
  rw [div_le_iff₀ (by norm_num : (0 : ℚ) < 100000)]
  linarith [h.2]

lemma chooseDirection_eq_or (m : MarketState) (rng : Rng) :
    (chooseDirection m rng).1 = "LONG" ∨ (chooseDirection m rng).1 = "SHORT" := by
  unfold chooseDirection
  dsimp only
  split_ifs <;> simp

/-- Evaluation of the flag-drawing loop when volume data is present
(`volume > 0`): the `"Volume Confirmation"` flag is computed from the volume
and consumes no draw, every other flag is the next coin flip in stream
order, and exactly nine flips are consumed. -/
lemma drawFlags_pos_volume (m : MarketState) (rng : Rng) (h : 0 < m.volume) :
    drawFlags m rng =
      ([("EMA Crossover", rng.bits rng.bIdx % 2),
        ("MACD", rng.bits (rng.bIdx + 1) % 2),
        ("RSI Divergence", rng.bits (rng.bIdx + 2) % 2),
        ("Liquidity Sweep", rng.bits (rng.bIdx + 3) % 2),
        ("VWAP Bounce", rng.bits (rng.bIdx + 4) % 2),
        ("Breakout", rng.bits (rng.bIdx + 5) % 2),
        ("Order Block", rng.bits (rng.bIdx + 6) % 2),
        ("Volume Confirmation", if 1000000 < m.volume then 1 else 0),
        ("Fibonacci Retracement", rng.bits (rng.bIdx + 7) % 2),
        ("Bollinger Bands", rng.bits (rng.bIdx + 8) % 2)],
       { rng with bIdx := rng.bIdx + 9 }) := by
  simp [drawFlags, INDICATORS, drawFlagsAux, drawBit, h]

/-- The direction stored in the signal is drawn by `chooseDirection` on the
random source left after the flag-drawing loop. -/
lemma analyze_signal_direction (m : MarketState) (news : NewsState)
    (w : TradingWindow) (hour : Int) (now : String) (rng : Rng) :
    (analyze_signal m news w hour now rng).1.direction =
      (chooseDirection m (drawFlags m rng).2).1 :=
  rfl

/-- The risk/reward ratio stored in the signal, in terms of the stored
(post-gate) probability. -/
lemma analyze_signal_risk_reward (m : MarketState) (news : NewsState)
    (w : TradingWindow) (hour : Int) (now : String) (rng : Rng) :
    (analyze_signal m news w hour now rng).1.risk_reward =
      roundTo1 (1 + ((analyze_signal m news w hour now rng).1.probability : ℚ) / 100 * 2) :=
  rfl

/-- The pip target stored in the signal: `int(probability / 10)` plus a
`randint(5, 15)` draw. -/
lemma analyze_signal_pips (m : MarketState) (news : NewsState)
    (w : TradingWindow) (hour : Int) (now : String) (rng : Rng) :
    ∃ r : Nat, (analyze_signal m news w hour now rng).1.pips_target =
      (analyze_signal m news w hour now rng).1.probability / 10 + (5 + r % 11) :=
  ⟨_, rfl⟩

/-- The duration stored in the signal is clamped into `[5, 45]`. -/
lemma analyze_signal_duration (m : MarketState) (news : NewsState)
    (w : TradingWindow) (hour : Int) (now : String) (rng : Rng) :
    ∃ x : Nat, (analyze_signal m news w hour now rng).1.duration = max 5 (min 45 x) :=
  ⟨_, rfl⟩

/-- The target price stored in the signal, in terms of the stored entry
price, pip target and direction. -/
lemma analyze_signal_target (m : MarketState) (news : NewsState)
    (w : TradingWindow) (hour : Int) (now : String) (rng : Rng) :
    (analyze_signal m news w hour now rng).1.target_price =
      if (analyze_signal m news w hour now rng).1.direction = "LONG" then
        roundTo5 ((analyze_signal m news w hour now rng).1.entry_price
          + (1 / 10000) * ((analyze_signal m news w hour now rng).1.pips_target : ℚ))
      else
        roundTo5 ((analyze_signal m news w hour now rng).1.entry_price
          - (1 / 10000) * ((analyze_signal m news w hour now rng).1.pips_target : ℚ)) :=
  rfl

/-- The stop loss stored in the signal, in terms of the stored entry price,
pip target, risk/reward ratio and direction. -/
lemma analyze_signal_stop (m : MarketState) (news : NewsState)
    (w : TradingWindow) (hour : Int) (now : String) (rng : Rng) :
    (analyze_signal m news w hour now rng).1.stop_loss =
      if (analyze_signal m news w hour now rng).1.direction = "LONG" then
        roundTo5 ((analyze_signal m news w hour now rng).1.entry_price
          - (1 / 10000) * (((analyze_signal m news w hour now rng).1.pips_target : ℚ)
            / (analyze_signal m news w hour now rng).1.risk_reward))
      else
        roundTo5 ((analyze_signal m news w hour now rng).1.entry_price
          + (1 / 10000) * (((analyze_signal m news w hour now rng).1.pips_target : ℚ)
            / (analyze_signal m news w hour now rng).1.risk_reward)) :=
  rfl

lemma lt_roundTo5_add {e d : ℚ} (hd : 1 / 200000 < d) : e < roundTo5 (e + d) := by
  have h := roundTo5_ge (e + d)
  linarith

lemma roundTo5_sub_lt {e d : ℚ} (hd : 1 / 200000 < d) : roundTo5 (e - d) < e := by
  have h := roundTo5_le (e - d)
  linarith

/-! ## Concrete fixtures used by counterexamples and witnesses -/

/-- A seeded random source whose raw draws are all zero. -/
def rng0 : Rng := ⟨fun _ => 0, fun _ => 0, fun _ => 0, 0, 0, 0⟩

/-- A seeded random source whose coin flips are all one. -/
def rng1 : Rng := ⟨fun _ => 1, fun _ => 0, fun _ => 0, 0, 0, 0⟩

/-- A seeded random source whose float draws are all `0.6`. -/
def rngL : Rng := ⟨fun _ => 0, fun _ => 3 / 5, fun _ => 0, 0, 0, 0⟩

/-- Market state: price 1.085 inside the range [1.08, 1.09], moderate
volume (positive but below the million threshold). -/
def m0 : MarketState := ⟨217 / 200, 500000, 109 / 100, 27 / 25, true⟩

/-- Market state with `volume == 0`, as when no volume data was fetched. -/
def mVol0 : MarketState := ⟨217 / 200, 0, 109 / 100, 27 / 25, true⟩

/-- News state with no high-impact event. -/
def n0 : NewsState := ⟨false⟩

/-- A trading window restricted to the hours `[5, 6)`. -/
def wGate : TradingWindow := ⟨5, 6, true⟩

/-- A trading window restricted to the hours `[0, 1)`. -/
def w01 : TradingWindow := ⟨0, 1, true⟩

/-- The default trading window of `app.py`: disabled, hours `[0, 24)`. -/
def w_default : TradingWindow := ⟨0, 24, false⟩

/-- A placeholder stored signal used to populate histories. -/
def sig0 : SignalRec :=
  ⟨"2026-01-01 00:00:00", [], 0, "SHORT", 5, 1, 217 / 200, 217 / 200,
   2169 / 2000, 2171 / 2000, 5, "weak", "danger", true, 500000, 109 / 100,
   27 / 25, false⟩

/-- A concrete signal dict as passed to `save_signal`. -/
def sd0 : SignalData :=
  ⟨"2026-01-01 00:00:00", "LONG", 50, 217 / 200, 1087 / 1000, 1083 / 1000, 10, 2,
   15, [("EMA Crossover", SVal.ival 1), ("MACD", SVal.bval true)], "moderate",
   some true, some false, some 500000⟩

/-- A concrete result dict as passed to `save_signal_result`, reporting a WIN
of 10 pips on signal 1. -/
def rd0 : ResultData :=
  ⟨1, "WIN", some 10, some (1087 / 1000), some "2026-01-01 01:00:00", none⟩

/-- A concrete market dict as passed to `save_market_snapshot`. -/
def md0 : SnapshotData := ⟨217 / 200, 109 / 100, 27 / 25, some 500000⟩

/-! ## The claims -/

/-- Claim C1, counterexample. With the window enabled on hours `[5, 6)` at UTC
hour 0, no news, and a random source drawing all zeros, trading is not
allowed, the unclamped tally is 0, and the resulting probability is
`max(10, 0 // 2) = 10` — which is **not** at most `floor(0 / 2) = 0`, so the
claim's bound "resulting probability ≤ floor(p / 2)" fails. -/
theorem C1_counterexample :
    is_trading_allowed wGate n0 0 = false ∧
    tally_probability m0 n0 rng0 = 0 ∧
    (analyze_signal m0 n0 wGate 0 "2026-01-01 00:00:00" rng0).1.probability = 10 ∧
    ¬((analyze_signal m0 n0 wGate 0 "2026-01-01 00:00:00" rng0).1.probability
        ≤ tally_probability m0 n0 rng0 / 2) := by
  decide

/-- Claim C1 as amended. Trading is allowed iff the trading window is disabled,
or the current UTC hour lies in `[start, end)` and there is no high-impact
news; and whenever trading is not allowed, if `p` is the probability computed
from the weighted indicator tally, the resulting probability equals
`max(10, p // 2)`, is at least 10, and is at most `max(10, p // 2)` (the
claim's bound `floor(p / 2)` holds exactly when `floor(p / 2) ≥ 10`). -/
theorem C1_trading_gate (m : MarketState) (news : NewsState) (w : TradingWindow)
    (hour : Int) (now : String) (rng : Rng) :
    (is_trading_allowed w news hour = true ↔
      w.enabled = false ∨
        (w.start ≤ hour ∧ hour < w.end_ ∧ news.high_impact = false)) ∧
    (is_trading_allowed w news hour = false →
      (analyze_signal m news w hour now rng).1.probability
          = max 10 (tally_probability m news rng / 2) ∧
      10 ≤ (analyze_signal m news w hour now rng).1.probability ∧
      (analyze_signal m news w hour now rng).1.probability
          ≤ max 10 (tally_probability m news rng / 2)) := by
  constructor
  · unfold is_trading_allowed
    split_ifs with h1 h2 h3 <;> simp_all
  · intro hfalse
    have heq := analyze_signal_probability m news w hour now rng
    rw [hfalse] at heq
    simp only [Bool.false_eq_true, if_false] at heq
    exact ⟨heq, heq ▸ le_max_left _ _, heq ▸ le_refl _⟩

/-- Witness for C1 at the counterexample's gate-closed input. -/
theorem C1_trading_gate_witness :
    (analyze_signal m0 n0 wGate 0 "2026-01-01 00:00:00" rng0).1.probability
        = max 10 (tally_probability m0 n0 rng0 / 2) ∧
    10 ≤ (analyze_signal m0 n0 wGate 0 "2026-01-01 00:00:00" rng0).1.probability := by
  have h := (C1_trading_gate m0 n0 wGate 0 "2026-01-01 00:00:00" rng0).2 (by decide)
  exact ⟨h.1, h.2.1⟩

/-- Claim C2, counterexample. Two synthesis calls with identical market state,
news state, trading window, history and seeded random source, but made at
different wall-clock UTC hours (0 and 12, with the window enabled on
`[0, 1)`), produce different Signal records: the current hour is a hidden
input of `analyze_signal` beyond the three claimed inputs and the random
source, so the claim as stated fails. -/
theorem C2_counterexample :
    (analyze_signal_app ⟨m0, n0, w01, [], 0, "2026-01-01 00:00:00", rng0⟩).1 ≠
      (analyze_signal_app ⟨m0, n0, w01, [], 12, "2026-01-01 00:00:00", rng0⟩).1 :=
  fun h => absurd (congrArg SignalRec.probability h) (by decide)

/-- Claim C2 as amended. When the market state is populated (price set and a
last-update present, so the initial fetch guard does not fire),
`analyze_signal` is a deterministic function of exactly the market state, the
news state, the trading window, the current time (UTC hour and timestamp) and
the seeded random source: two calls on application states agreeing on those
components — and on nothing else, e.g. with different signal histories —
return identical Signal records and final random sources. -/
theorem C2_determinism (s1 s2 : AppState)
    (_hp : s1.market.current_price ≠ 0) (_hu : s1.market.has_last_update = true)
    (h1 : s1.market = s2.market) (h2 : s1.news = s2.news)
    (h3 : s1.trading_hours = s2.trading_hours) (h4 : s1.hour = s2.hour)
    (h5 : s1.now = s2.now) (h6 : s1.rng = s2.rng) :
    analyze_signal_app s1 = analyze_signal_app s2 := by
  simp only [analyze_signal_app, h1, h2, h3, h4, h5, h6]

/-- Witness for C2: two application states that differ only in their signal
histories yield identical synthesis results. -/
theorem C2_determinism_witness :
    analyze_signal_app ⟨m0, n0, w01, [], 0, "2026-01-01 00:00:00", rng0⟩ =
      analyze_signal_app ⟨m0, n0, w01, [sig0], 0, "2026-01-01 00:00:00", rng0⟩ :=
  C2_determinism _ _ (by norm_num [m0]) rfl rfl rfl rfl rfl rfl rfl

/-- Claim C3, counterexample. When `market.volume == 0` (volume data absent),
the `"Volume Confirmation"` flag **is** drawn from the random source: with a
random source whose coin flips are all 1, the flag comes out 1 although
`volume > 1,000,000` is false (the claimed data-driven value is 0), and ten
draws are consumed instead of nine. -/
theorem C3_counterexample :
    getFlag (drawFlags mVol0 rng1).1 "Volume Confirmation" = 1 ∧
    ¬(getFlag (drawFlags mVol0 rng1).1 "Volume Confirmation"
        = if 1000000 < mVol0.volume then 1 else 0) ∧
    (drawFlags mVol0 rng1).2.bIdx = 10 := by
  decide

/-- Claim C3 as amended. Whenever `market.volume > 0`, the `"Volume
Confirmation"` flag is data-driven — it equals 1 if `market.volume >
1,000,000` and 0 otherwise and consumes no random draw (exactly nine coin
flips are consumed for the ten catalog indicators) — while every other
catalog indicator flag is one of those nine successive coin flips. -/
theorem C3_flag_drawing (m : MarketState) (rng : Rng) (h : 0 < m.volume) :
    getFlag (drawFlags m rng).1 "Volume Confirmation"
        = (if 1000000 < m.volume then 1 else 0) ∧
    (drawFlags m rng).2.bIdx = rng.bIdx + 9 ∧
    (∀ name ∈ INDICATORS, name ≠ "Volume Confirmation" →
      ∃ k, k < 9 ∧ getFlag (drawFlags m rng).1 name = rng.bits (rng.bIdx + k) % 2) := by
  rw [drawFlags_pos_volume m rng h]
  refine ⟨by simp [getFlag], rfl, ?_⟩
  intro name hmem hne
  simp only [INDICATORS, List.mem_cons, List.not_mem_nil, or_false] at hmem
  rcases hmem with rfl | rfl | rfl | rfl | rfl | rfl | rfl | rfl | rfl | rfl
  · exact ⟨0, by norm_num, by simp [getFlag]⟩
  · exact ⟨1, by norm_num, by simp [getFlag]⟩
  · exact ⟨2, by norm_num, by simp [getFlag]⟩
  · exact ⟨3, by norm_num, by simp [getFlag]⟩
  · exact ⟨4, by norm_num, by simp [getFlag]⟩
  · exact ⟨5, by norm_num, by simp [getFlag]⟩
  · exact ⟨6, by norm_num, by simp [getFlag]⟩
  · exact absurd rfl hne
  · exact ⟨7, by norm_num, by simp [getFlag]⟩
  · exact ⟨8, by norm_num, by simp [getFlag]⟩

/-- Witness for C3 at a market state with positive (sub-threshold) volume. -/
theorem C3_flag_drawing_witness :
    getFlag (drawFlags m0 rng0).1 "Volume Confirmation"
        = (if 1000000 < m0.volume then 1 else 0) ∧
    (drawFlags m0 rng0).2.bIdx = rng0.bIdx + 9 := by
  have h := C3_flag_drawing m0 rng0 (by decide)
  exact ⟨h.1, h.2.1⟩

/-- Claim C6. The in-memory signal history is a ring buffer of capacity 10:
after the append performed by the dashboard-render and new-signal routes, the
history holds at most 10 entries, and when an append would exceed 10 the
oldest entry (the list head) is the one removed, preserving FIFO order. -/
theorem C6_ring_buffer {α : Type} (h : List α) (s : α) (hlen : h.length ≤ 10) :
    (push_history h s).length ≤ 10 ∧
    (h.length = 10 → push_history h s = h.tail ++ [s]) := by
  constructor
  · unfold push_history
    dsimp only
    split_ifs with hc <;> simp at hc ⊢ <;> omega
  · intro h10
    unfold push_history
    dsimp only
    rw [if_pos (by simp [h10]),
      List.drop_append_of_le_length (by omega), List.drop_one]

/-- Witness for C6 on a full 10-element history. -/
theorem C6_ring_buffer_witness :
    (push_history (List.range 10) 10).length ≤ 10 ∧
    ((List.range 10).length = 10 →
      push_history (List.range 10) 10 = (List.range 10).tail ++ [10]) :=
  C6_ring_buffer (List.range 10) 10 (by decide)

/-- Claim C7. Every persistence write (`save_signal`, `save_signal_result`,
`save_market_snapshot`) is atomic: on failure the transaction is rolled back
— the persisted store is unchanged — and `None` is returned to the caller
instead of an exception propagating; on success exactly one new record is
committed and its id is returned. -/
theorem C7_atomic_writes (sdb : List SignalRow) (rdb : List ResultRow)
    (mdb : List SnapshotRow) (sd : SignalData) (rd : ResultData)
    (md : SnapshotData) (ok : Bool) :
    ((save_signal sdb sd ok).2 = none → (save_signal sdb sd ok).1 = sdb) ∧
    ((save_signal sdb sd ok).2 ≠ none →
      (save_signal sdb sd ok).1 = sdb ++ [mkSignalRow (sdb.length + 1) sd] ∧
      (save_signal sdb sd ok).2 = some (sdb.length + 1)) ∧
    ((save_signal_result rdb rd ok).2 = none →
      (save_signal_result rdb rd ok).1 = rdb) ∧
    ((save_signal_result rdb rd ok).2 ≠ none →
      (save_signal_result rdb rd ok).1 = rdb ++ [mkResultRow (rdb.length + 1) rd] ∧
      (save_signal_result rdb rd ok).2 = some (rdb.length + 1)) ∧
    ((save_market_snapshot mdb md ok).2 = none →
      (save_market_snapshot mdb md ok).1 = mdb) ∧
    ((save_market_snapshot mdb md ok).2 ≠ none →
      (save_market_snapshot mdb md ok).1 = mdb ++ [mkSnapshotRow (mdb.length + 1) md] ∧
      (save_market_snapshot mdb md ok).2 = some (mdb.length + 1)) := by
  cases ok <;>
    simp [save_signal, save_signal_result, save_market_snapshot, mkSignalRow,
      mkResultRow, mkSnapshotRow]

/-- Witness for C7: a failed write leaves the store unchanged, a successful
write returns the new id. -/
theorem C7_atomic_writes_witness :
    (save_signal [] sd0 false).1 = [] ∧
    (save_signal [] sd0 true).2 = some 1 ∧
    (save_signal_result [] rd0 false).1 = [] ∧
    (save_market_snapshot [] md0 true).2 = some 1 := by
  have hf := C7_atomic_writes [] [] [] sd0 rd0 md0 false
  have ht := C7_atomic_writes [] [] [] sd0 rd0 md0 true
  refine ⟨hf.1 (by decide), ?_, hf.2.2.1 (by decide), ?_⟩
  · have := (ht.2.1 (by decide)).2
    simpa using this
  · have := (ht.2.2.2.2.2 (by decide)).2
    simpa using this

/-- Claim C8. `get_signal_statistics` returns: the total signal count, the
count of signals with results (equal to the number of stored result rows,
given the documented at-most-one-result-per-signal shape), the win count,
the loss count, `win_rate = wins / signals_with_results * 100` rounded to 2
decimals (0 when there are no results), and `avg_pips_gained` as the mean of
the recorded (non-null) `pips_gained` values rounded to 2 decimals (0 when
there are none); on an empty store everything is zero. -/
theorem C8_statistics (sdb : List SignalRow) (rdb : List ResultRow)
    (hone : (rdb.map (fun r => r.signal_id)).Nodup) :
    (get_signal_statistics sdb rdb).total_signals = sdb.length ∧
    (get_signal_statistics sdb rdb).signals_with_results
        = (rdb.map (fun r => r.signal_id)).dedup.length ∧
    (get_signal_statistics sdb rdb).wins
        = (rdb.filter (fun r => r.result = "WIN")).length ∧
    (get_signal_statistics sdb rdb).losses
        = (rdb.filter (fun r => r.result = "LOSS")).length ∧
    (get_signal_statistics sdb rdb).win_rate =
      roundTo2 (if 0 < (get_signal_statistics sdb rdb).signals_with_results then
        ((get_signal_statistics sdb rdb).wins : ℚ)
          / ((get_signal_statistics sdb rdb).signals_with_results : ℚ) * 100
        else 0) ∧
    (get_signal_statistics sdb rdb).avg_pips_gained =
      roundTo2 (if rdb.filterMap (fun r => r.pips_gained) = [] then 0
        else (rdb.filterMap (fun r => r.pips_gained)).sum
          / ((rdb.filterMap (fun r => r.pips_gained)).length : ℚ)) ∧
    get_signal_statistics [] [] = ⟨0, 0, 0, 0, 0, 0⟩ := by
  have hlen : (rdb.map (fun r => r.signal_id)).dedup.length = rdb.length := by
    rw [hone.dedup, List.length_map]
  refine ⟨rfl, by simp [get_signal_statistics, hlen], rfl, rfl, rfl, ?_, ?_⟩
  · simp only [get_signal_statistics, List.length_eq_zero]
  · norm_num [get_signal_statistics, roundTo2]

/-- Witness for C8 on a one-WIN store. -/
theorem C8_statistics_witness :
    (get_signal_statistics [] [mkResultRow 1 rd0]).signals_with_results = 1 ∧
    (get_signal_statistics [] [mkResultRow 1 rd0]).win_rate = 100 ∧
    (get_signal_statistics [] [mkResultRow 1 rd0]).avg_pips_gained = 10 := by
  have h := C8_statistics [] [mkResultRow 1 rd0] (by simp)
  refine ⟨h.2.1.trans (by simp), ?_, ?_⟩
  · simp only [get_signal_statistics, mkResultRow, rd0, List.filterMap_cons,
      List.filterMap_nil, List.filter_cons, List.filter_nil]
    norm_num [roundTo2, round_eq]
  · simp only [get_signal_statistics, mkResultRow, rd0, List.filterMap_cons,
      List.filterMap_nil, List.filter_cons, List.filter_nil]
    norm_num [roundTo2, round_eq]

/-- Claim C9, the code's actual behavior at the failing input. The data-access layer does
**not** enforce at most one `SignalResult` per Signal: starting from a store
already holding a result for signal 1, a second `save_signal_result` call
referencing signal 1 is not rejected — it is stored and assigned a fresh id,
leaving two results for the same signal. -/
theorem C9_duplicate_result_stored :
    (save_signal_result [mkResultRow 1 rd0] rd0 true).2 = some 2 ∧
    ((save_signal_result [mkResultRow 1 rd0] rd0 true).1.filter
        (fun r => r.signal_id = 1)).length = 2 := by
  decide

/-- Claim C10. The settings update is not atomic on malformed input: with the
default window (disabled, hours `[0, 24)`) and the body
`{trading_hours: {enabled: true, start: "abc"}}`, the endpoint reports
`success: false` (since `int("abc")` raises), yet the window state differs
from its value before the call — `enabled` was already flipped to true. -/
theorem C10_settings_not_atomic :
    (update_settings w_default
        ⟨some (JVal.jbool true), some (JVal.jstr "abc"), none⟩).2 = false ∧
    (update_settings w_default
        ⟨some (JVal.jbool true), some (JVal.jstr "abc"), none⟩).1 ≠ w_default ∧
    (update_settings w_default
        ⟨some (JVal.jbool true), some (JVal.jstr "abc"), none⟩).1 = ⟨0, 24, true⟩ := by
  decide

/-- Claim C4. For every synthesized Signal, regardless of market data, news
state, trading window, and random draws: `duration` lies in `[5, 45]`,
`risk_reward` lies in `[1.0, 3.0]`, and the pip target is at least 5. -/
theorem C4_signal_bounds (m : MarketState) (news : NewsState) (w : TradingWindow)
    (hour : Int) (now : String) (rng : Rng) :
    5 ≤ (analyze_signal m news w hour now rng).1.duration ∧
    (analyze_signal m news w hour now rng).1.duration ≤ 45 ∧
    1 ≤ (analyze_signal m news w hour now rng).1.risk_reward ∧
    (analyze_signal m news w hour now rng).1.risk_reward ≤ 3 ∧
    5 ≤ (analyze_signal m news w hour now rng).1.pips_target := by
  obtain ⟨x, hd⟩ := analyze_signal_duration m news w hour now rng
  obtain ⟨r, hp⟩ := analyze_signal_pips m news w hour now rng
  have hrr := analyze_signal_risk_reward m news w hour now rng
  have hple := analyze_signal_probability_le_100 m news w hour now rng
  have hb := roundTo1_rr_bounds hple
  refine ⟨?_, ?_, ?_, ?_, ?_⟩
  · rw [hd]; exact le_max_left _ _
  · rw [hd]; exact max_le (by norm_num) (min_le_left _ _)
  · rw [hrr]; exact hb.1
  · rw [hrr]; exact hb.2
  · rw [hp]; omega

/-- Claim C5. For every synthesized Signal: if direction is LONG then
`target_price > entry_price` and `stop_loss < entry_price`; if direction is
SHORT then `target_price < entry_price` and `stop_loss > entry_price`
(strictly, even after rounding prices to 5 decimal places, because the pip
target is at least 5 and the risk/reward ratio is at most 3). -/
theorem C5_price_ordering (m : MarketState) (news : NewsState) (w : TradingWindow)
    (hour : Int) (now : String) (rng : Rng) :
    ((analyze_signal m news w hour now rng).1.direction = "LONG" →
      (analyze_signal m news w hour now rng).1.entry_price
          < (analyze_signal m news w hour now rng).1.target_price ∧
      (analyze_signal m news w hour now rng).1.stop_loss
          < (analyze_signal m news w hour now rng).1.entry_price) ∧
    ((analyze_signal m news w hour now rng).1.direction = "SHORT" →
      (analyze_signal m news w hour now rng).1.target_price
          < (analyze_signal m news w hour now rng).1.entry_price ∧
      (analyze_signal m news w hour now rng).1.entry_price
          < (analyze_signal m news w hour now rng).1.stop_loss) := by
  obtain ⟨r, hp⟩ := analyze_signal_pips m news w hour now rng
  have hrr := analyze_signal_risk_reward m news w hour now rng
  have hple := analyze_signal_probability_le_100 m news w hour now rng
  have hb := roundTo1_rr_bounds hple
  have ht := analyze_signal_target m news w hour now rng
  have hs := analyze_signal_stop m news w hour now rng
  have hp5 : (5 : ℚ) ≤ ((analyze_signal m news w hour now rng).1.pips_target : ℚ) := by
    have : 5 ≤ (analyze_signal m news w hour now rng).1.pips_target := by rw [hp]; omega
    exact_mod_cast this
  have hrr1 : (1 : ℚ) ≤ (analyze_signal m news w hour now rng).1.risk_reward := by
    rw [hrr]; exact hb.1
  have hrr3 : (analyze_signal m news w hour now rng).1.risk_reward ≤ 3 := by
    rw [hrr]; exact hb.2
  have hrrpos : (0 : ℚ) < (analyze_signal m news w hour now rng).1.risk_reward :=
    lt_of_lt_of_le one_pos hrr1
  have hd1 : (1 : ℚ) / 200000 <
      (1 / 10000) * ((analyze_signal m news w hour now rng).1.pips_target : ℚ) := by
    nlinarith
  have hq : (1 : ℚ) / 20 < ((analyze_signal m news w hour now rng).1.pips_target : ℚ)
      / (analyze_signal m news w hour now rng).1.risk_reward := by
    rw [lt_div_iff₀ hrrpos]; nlinarith
  have hd2 : (1 : ℚ) / 200000 <
      (1 / 10000) * (((analyze_signal m news w hour now rng).1.pips_target : ℚ)
        / (analyze_signal m news w hour now rng).1.risk_reward) := by
    nlinarith
  constructor
  · intro hdir
    rw [ht, hs, hdir]
    simp only [if_pos rfl]
    exact ⟨lt_roundTo5_add hd1, roundTo5_sub_lt hd2⟩
  · intro hdir
    have hne : (analyze_signal m news w hour now rng).1.direction ≠ "LONG" := by
      rw [hdir]; decide
    rw [ht, hs]
    simp only [if_neg hne]
    exact ⟨roundTo5_sub_lt hd1, lt_roundTo5_add hd2⟩

/-- Witness for C5 at a concrete input whose drawn direction is LONG. -/
theorem C5_price_ordering_witness :
    (analyze_signal m0 n0 w_default 0 "2026-01-01 00:00:00" rngL).1.direction = "LONG" ∧
    (analyze_signal m0 n0 w_default 0 "2026-01-01 00:00:00" rngL).1.entry_price
        < (analyze_signal m0 n0 w_default 0 "2026-01-01 00:00:00" rngL).1.target_price ∧
    (analyze_signal m0 n0 w_default 0 "2026-01-01 00:00:00" rngL).1.stop_loss
        < (analyze_signal m0 n0 w_default 0 "2026-01-01 00:00:00" rngL).1.entry_price := by
  have hdir : (analyze_signal m0 n0 w_default 0 "2026-01-01 00:00:00" rngL).1.direction
      = "LONG" := by
    rw [analyze_signal_direction, drawFlags_pos_volume m0 rngL (by decide)]
    norm_num [chooseDirection, drawFloat, m0, rngL, Int.fract]
  exact ⟨hdir,
    (C5_price_ordering m0 n0 w_default 0 "2026-01-01 00:00:00" rngL).1 hdir⟩

end Scalping
